import Mathlib

/-!
Verification of the Mahavihara adaptive-tutor frontend against its
specification.  The definitions below are a shallow embedding of the
TypeScript sources under `mahavihara-frontend/` (the chat page, the
prescription card, the graph view and the API client).  Mastery scores and
durations, `number` in TypeScript, are modelled as rationals; JavaScript
arrays become lists; `null`/optional values become `Option`.
-/

namespace Mahavihara

/-- Graph node status, from the union type
`status: "mastered" | "failed" | "neutral"` of `GraphNode` in `lib/api.ts`. -/
inductive Status where
  | mastered
  | failed
  | neutral
deriving DecidableEq, Repr, Fintype

/-- Colour classes used by the per-concept mastery bar of
`components/ChatInterface.tsx` (green / red / amber fill). -/
inductive BarColor where
  | green
  | red
  | amber
deriving DecidableEq, Repr

/-- The per-concept bar fill chosen in `ChatInterface.tsx` (lines 262-268):
`score >= 0.6` green, `score < 0.4` red, otherwise amber. -/
def masteryBarColor (score : ℚ) : BarColor :=
  if 3/5 ≤ score then .green
  else if score < 2/5 then .red
  else .amber

/-- The text colour chosen by `MasteryBar` in the earlier `ChatInterface.tsx`
revision (`src/unnamed/part_004`, lines 64-76): `score >= 0.6` green text,
`score < 0.4` red text, otherwise yellow text. -/
def masteryTextColor (score : ℚ) : String :=
  if 3/5 ≤ score then "text-green-400"
  else if score < 2/5 then "text-red-400"
  else "text-yellow-400"

/-- Modelled from the spec: the derivation of a node's tri-state status from
mastery given in section 6 — "≥0.6 mastered, <0.4 failed/weak, else neutral".
Used to compare the UI's styling against the spec's derivation. -/
def specStatusOfMastery (score : ℚ) : Status :=
  if 3/5 ≤ score then .mastered
  else if score < 2/5 then .failed
  else .neutral

/-- C1: every mastery score displayed by the UI is styled in agreement with
the spec's derivation from mastery: green exactly when the spec derives
`mastered` (score ≥ 0.6), red exactly when it derives `failed` (score < 0.4),
and the neutral styling exactly on [0.4, 0.6); moreover the graph node status
type admits exactly the three values mastered, failed, neutral. -/
theorem masteryStylingAgreesWithSpec (score : ℚ) :
    (masteryBarColor score = .green ↔ specStatusOfMastery score = .mastered) ∧
    (masteryBarColor score = .red ↔ specStatusOfMastery score = .failed) ∧
    (masteryBarColor score = .amber ↔ specStatusOfMastery score = .neutral) ∧
    (masteryTextColor score = "text-green-400" ↔ specStatusOfMastery score = .mastered) ∧
    (masteryTextColor score = "text-red-400" ↔ specStatusOfMastery score = .failed) ∧
    (masteryTextColor score = "text-yellow-400" ↔ specStatusOfMastery score = .neutral) ∧
    (specStatusOfMastery score = .mastered ↔ 3/5 ≤ score) ∧
    (specStatusOfMastery score = .failed ↔ score < 2/5) ∧
    (specStatusOfMastery score = .neutral ↔ 2/5 ≤ score ∧ score < 3/5) ∧
    Fintype.card Status = 3 := by
  refine ⟨?_, ?_, ?_, ?_, ?_, ?_, ?_, ?_, ?_, rfl⟩
  · unfold masteryBarColor specStatusOfMastery; split_ifs <;> simp
  · unfold masteryBarColor specStatusOfMastery; split_ifs <;> simp
  · unfold masteryBarColor specStatusOfMastery; split_ifs <;> simp
  · unfold masteryTextColor specStatusOfMastery; split_ifs <;> simp
  · unfold masteryTextColor specStatusOfMastery; split_ifs <;> simp
  · unfold masteryTextColor specStatusOfMastery; split_ifs <;> simp
  · unfold specStatusOfMastery
    split_ifs with a b <;> simp_all <;> first
      | linarith
      | (intro x; linarith)
      | exact ⟨by linarith, by linarith⟩
  · unfold specStatusOfMastery
    split_ifs with a b <;> simp_all <;> first
      | linarith
      | (intro x; linarith)
      | exact ⟨by linarith, by linarith⟩
  · unfold specStatusOfMastery
    split_ifs with a b <;> simp_all <;> first
      | linarith
      | (intro x; linarith)
      | exact ⟨by linarith, by linarith⟩

/-- Concrete instantiation of `masteryStylingAgreesWithSpec` at score 0.5. -/
theorem masteryStylingAgreesWithSpec_witness :
    (masteryBarColor (1/2) = .amber ↔ specStatusOfMastery (1/2) = .neutral) :=
  (masteryStylingAgreesWithSpec (1/2)).2.2.1

/-- One remediation phase, from `interface PrescriptionPhase` in
`components/PrescriptionCard.tsx` (also `lib/api.ts`). -/
structure PrescriptionPhase where
  phase : Nat
  action : String
  title : String
  url : Option String
  source : String
  duration : String
  instruction : Option String := none
  icon : String
deriving DecidableEq, Repr

/-- A curated resource, from `interface PrescriptionResource` in
`components/PrescriptionCard.tsx`. -/
structure PrescriptionResource where
  type : String
  title : String
  url : String
  source : String
  why : String
  timestamp : Option String := none
deriving DecidableEq, Repr

/-- From `interface Diagnosis` in `components/PrescriptionCard.tsx`. -/
structure Diagnosis where
  failed_concept : String
  root_cause : String
  misconception : Option String
  explanation : Option String
  confidence : ℚ
deriving DecidableEq, Repr

/-- The `verification` field of the card-level prescription data. -/
structure Verification where
  question_ids : List String
  success_criteria : String
deriving DecidableEq, Repr

/-- The card-level `interface PrescriptionData` of
`components/PrescriptionCard.tsx` (the flat shape the card component
receives as its `prescription` prop). -/
structure CardPrescriptionData where
  diagnosis : Diagnosis
  phases : List PrescriptionPhase
  resources : List PrescriptionResource
  verification : Verification
  estimated_time : String
deriving DecidableEq, Repr

/-- Reads the leading decimal number of a duration string such as
`"5 min"` or `"15 minutes"` as a number of minutes. -/
def parseMinutes (s : String) : Nat :=
  (s.data.takeWhile Char.isDigit).foldl (fun acc c => 10 * acc + (c.toNat - 48)) 0

/-- The `samplePrescription` fixture of `PrescriptionCardDemo` in
`components/PrescriptionCard.tsx` (lines 373-445), the one concrete
prescription rendered by the card inside this repository. -/
def samplePrescription : CardPrescriptionData :=
  { diagnosis :=
      { failed_concept := "Eigenvalues"
        root_cause := "Determinants"
        misconception := some "Eigenvector-Eigenvalue Swap"
        explanation := some "You chose \x27Eigenvector\x27 when asked about Œª. Remember: Œª is the eigenVALUE (a number), v is the eigenVECTOR (a direction)."
        confidence := 85/100 }
    phases :=
      [ { phase := 1
          action := "Watch"
          title := "3Blue1Brown - Eigenvectors and Eigenvalues"
          url := some "https://youtube.com/watch?v=PFDu9oVAE-g"
          source := "3blue1brown"
          duration := "5 min"
          instruction := some "Focus on why eigenvectors \x27stay on their span\x27"
          icon := "üé¨" },
        { phase := 2
          action := "Experiment"
          title := "Eigenvector Visualization Tool"
          url := some "https://setosa.io/ev/eigenvectors-and-eigenvalues/"
          source := "setosa"
          duration := "3 min"
          instruction := some "Drag vectors and watch which ones stay on their line"
          icon := "üî¨" },
        { phase := 3
          action := "Practice"
          title := "Targeted Eigenvalue Problems"
          url := none
          source := "mahavihara"
          duration := "5 min"
          instruction := some "3 problems testing eigenvalue vs eigenvector distinction"
          icon := "‚úèÔ∏è" },
        { phase := 4
          action := "Prove It"
          title := "Verification Quiz"
          url := none
          source := "mahavihara"
          duration := "2 min"
          instruction := some "2/3 correct to pass"
          icon := "‚úÖ" } ]
    resources :=
      [ { type := "video"
          title := "Eigenvectors and eigenvalues | Essence of linear algebra"
          url := "https://youtube.com/watch?v=PFDu9oVAE-g"
          source := "3blue1brown"
          why := "Best visual intuition - eigenvectors as directions that stay on their span"
          timestamp := some "0:00" },
        { type := "interactive"
          title := "Eigenvectors and Eigenvalues Explained Visually"
          url := "https://setosa.io/ev/eigenvectors-and-eigenvalues/"
          source := "setosa"
          why := "Drag vectors to see eigenvalue scaling in real-time" } ]
    verification :=
      { question_ids := ["eig_1", "eig_2", "eig_3"]
        success_criteria := "Answer 2/3 eigenvalue questions correctly" }
    estimated_time := "15 minutes" }

/-- C2 counterexample: the concrete prescription rendered by the card in this
repository has 4 phases, not 3, and its action sequence is not
Watch, Practice, Verify. -/
theorem samplePrescriptionNotThreePhases :
    ¬ (samplePrescription.phases.length = 3 ∧
       samplePrescription.phases.map (fun p => p.action) = ["Watch", "Practice", "Verify"]) := by
  intro h
  exact absurd h.1 (by decide)

/-- C2 amended: the prescription rendered by the prescription card
(`samplePrescription`) has exactly 4 phases, in order Watch, Experiment,
Practice, Prove It, numbered 1..4, and its `estimated_time` (15 minutes)
equals the sum of the per-phase durations (5+3+5+2 minutes). -/
theorem samplePrescriptionPhases :
    samplePrescription.phases.length = 4 ∧
    samplePrescription.phases.map (fun p => p.action) =
      ["Watch", "Experiment", "Practice", "Prove It"] ∧
    samplePrescription.phases.map (fun p => p.phase) = [1, 2, 3, 4] ∧
    parseMinutes samplePrescription.estimated_time =
      (samplePrescription.phases.map (fun p => parseMinutes p.duration)).sum :=
  ⟨rfl, rfl, rfl, by decide⟩

/-- `handleStartPrescriptionPhase` in `app/page.tsx` (lines 174-179): the new
completed list appends `Array.from({length: phase - 1}, (_, i) => i + 1)`
(that is, `[1, ..., phase-1]`) filtered to the entries not already present. -/
def startPhaseUpdate (completed : List Nat) (phase : Nat) : List Nat :=
  completed ++
    (((List.range (phase - 1)).map (fun i => i + 1)).filter (fun p => !completed.contains p))

/-- The effect of `handlePrescriptionComplete` (lines 181-188) on the
completed list: `prescription.prescription.phases.map((_, i) => i + 1)`,
i.e. all 1-based positions of the active prescription's phase list. -/
def completeUpdate (numPhases : Nat) : List Nat :=
  (List.range numPhases).map (fun i => i + 1)

/-- Completed-phase lists reachable from the initial empty state
(`useState<number[]>([])`) through the page's handlers:
`handleStartPrescriptionPhase`, `handlePrescriptionComplete`, and the resets
(`handleReset`, and the fresh-prescription reset in `handleSendMessage`),
both of which set the list back to `[]`. -/
inductive ReachableCompleted : List Nat → Prop where
  | init : ReachableCompleted []
  | start (s : List Nat) (phase : Nat) :
      ReachableCompleted s → ReachableCompleted (startPhaseUpdate s phase)
  | complete (s : List Nat) (numPhases : Nat) :
      ReachableCompleted s → ReachableCompleted (completeUpdate numPhases)
  | reset (s : List Nat) : ReachableCompleted s → ReachableCompleted []

/-- Membership in `startPhaseUpdate`. -/
theorem mem_startPhaseUpdate (completed : List Nat) (phase j : Nat) :
    j ∈ startPhaseUpdate completed phase ↔
      j ∈ completed ∨ (1 ≤ j ∧ j ≤ phase - 1) := by
  unfold startPhaseUpdate
  simp only [List.mem_append, List.mem_filter, List.mem_map, List.mem_range,
    List.contains, List.elem_eq_mem, Bool.not_eq_true', decide_eq_false_iff_not]
  constructor
  · rintro (h | ⟨⟨i, hi, rfl⟩, -⟩)
    · exact Or.inl h
    · exact Or.inr ⟨by omega, by omega⟩
  · rintro (h | ⟨h1, h2⟩)
    · exact Or.inl h
    · by_cases hc : j ∈ completed
      · exact Or.inl hc
      · exact Or.inr ⟨⟨j - 1, by omega, by omega⟩, hc⟩

/-- Membership in `completeUpdate`. -/
theorem mem_completeUpdate (numPhases j : Nat) :
    j ∈ completeUpdate numPhases ↔ 1 ≤ j ∧ j ≤ numPhases := by
  unfold completeUpdate
  simp only [List.mem_map, List.mem_range]
  constructor
  · rintro ⟨i, hi, rfl⟩; omega
  · rintro ⟨h1, h2⟩; exact ⟨j - 1, by omega, by omega⟩

/-- C3: in every state of the prescription-progress tracking reachable from
the empty completed set through `handleStartPrescriptionPhase`,
`handlePrescriptionComplete` and reset, the set of completed phases is a
prefix `{1, ..., m}` of the phase numbers; in particular, if phase `k` is
marked complete then every phase `j` with `1 ≤ j < k` is also marked
complete. -/
theorem completedPhasesArePrefixSet (s : List Nat) (h : ReachableCompleted s) :
    ∃ m : Nat, ∀ j : Nat, j ∈ s ↔ 1 ≤ j ∧ j ≤ m := by
  induction h with
  | init => exact ⟨0, fun j => by simp; omega⟩
  | start t phase _ ih =>
      obtain ⟨m, hm⟩ := ih
      refine ⟨max m (phase - 1), fun j => ?_⟩
      rw [mem_startPhaseUpdate, hm j]
      omega
  | complete t numPhases _ _ =>
      exact ⟨numPhases, fun j => mem_completeUpdate numPhases j⟩
  | reset t _ _ => exact ⟨0, fun j => by simp; omega⟩

/-- Concrete instantiation of `completedPhasesArePrefixSet`: starting phase 3
from the empty state yields the completed set `[1, 2]`, a prefix. -/
theorem completedPhasesArePrefixSet_witness :
    ∃ m : Nat, ∀ j : Nat, j ∈ startPhaseUpdate [] 3 ↔ 1 ≤ j ∧ j ≤ m :=
  completedPhasesArePrefixSet (startPhaseUpdate [] 3)
    (ReachableCompleted.start [] 3 ReachableCompleted.init)

/-- A chat message, from `interface Message` in `lib/api.ts`
(`role: "user" | "assistant"`). -/
structure Message where
  role : String
  content : String
deriving DecidableEq, Repr

/-- The `mastery: Record<string, number>` maps of the API responses and the
page state, modelled as an association list from concept id to score. -/
abbrev MasteryMap := List (String × ℚ)

/-- `prevMastery[concept]`: property lookup on the mastery record. -/
def lookupMastery (m : MasteryMap) (c : String) : Option ℚ :=
  (m.find? (fun p => p.1 == c)).map (fun p => p.2)

/-- The mastery-celebration detection of `handleSendMessage` in
`app/page.tsx` (lines 128-138): some key of the new mastery map satisfies
`(prevMastery[concept] || 0) < 0.6 && newMastery[concept] >= 0.6`
(a concept absent from the previous map counts as 0). -/
def celebrationFires (prev new : MasteryMap) : Bool :=
  new.any (fun p =>
    decide ((lookupMastery prev p.1).getD 0 < 3/5) && decide ((3 : ℚ)/5 ≤ p.2))

/-- The `prescription: { title, phases, total_time }` field of the API-level
`PrescriptionData` (`lib/api.ts`). -/
structure ApiPrescriptionPlan where
  title : String
  phases : List PrescriptionPhase
  total_time : String
deriving DecidableEq, Repr

/-- The `resources: { title, items }` field of the API-level
`PrescriptionData`. -/
structure ApiResources where
  title : String
  items : List PrescriptionResource
deriving DecidableEq, Repr

/-- The `verification` field of the API-level `PrescriptionData`. -/
structure ApiVerification where
  title : String
  criteria : String
  question_ids : List String
  success_criteria : String
deriving DecidableEq, Repr

/-- The API-level `interface Diagnosis` of `lib/api.ts` (adds an optional
`title` to the card-level shape). -/
structure ApiDiagnosis where
  title : Option String := none
  failed_concept : String
  root_cause : String
  misconception : Option String
  explanation : Option String
  confidence : ℚ
deriving DecidableEq, Repr

/-- The API-level `interface PrescriptionData` of `lib/api.ts`, the shape
held in the page's `prescription` state. -/
structure ApiPrescriptionData where
  diagnosis : ApiDiagnosis
  prescription : ApiPrescriptionPlan
  resources : ApiResources
  verification : ApiVerification
  formatted : Option String := none
deriving DecidableEq, Repr

/-- The `Home` component state of `app/page.tsx` that the claims touch
(render-only pieces such as the graph node/edge arrays are carried by the
same component but never read by the handlers modelled here). -/
structure HomeState where
  sessionId : Option String
  messages : List Message
  phase : String
  mastery : MasteryMap
  quizPassed : Option Bool
  canAdvance : Bool
  nextConcept : Option String
  isLoading : Bool
  showConfetti : Bool
  prescription : Option ApiPrescriptionData
  showPrescription : Bool
  currentPrescriptionPhase : Nat
  completedPrescriptionPhases : List Nat
deriving Repr

/-- The `forEach` block of `handleSendMessage` (lines 131-138): when some
concept crosses the 0.6 threshold, confetti is shown and the prescription
card is cleared; otherwise those fields are untouched. -/
def masteryCelebration (s : HomeState) (newMastery : MasteryMap) : HomeState :=
  if celebrationFires s.mastery newMastery then
    { s with showConfetti := true, showPrescription := false, prescription := none }
  else s

/-- C4: the mastery-celebration signal (confetti shown, prescription card
cleared) fires if and only if some concept of the new mastery map was
strictly below 0.6 before the turn (absent counting as 0) and is at least
0.6 after; the detection is the caller's diff of the two snapshots
(`celebrationFires`), the chat response carrying no `justMastered` flag. -/
theorem celebrationIffMasteryCrossing (s : HomeState) (newMastery : MasteryMap) :
    (celebrationFires s.mastery newMastery = true ↔
      ∃ c q, (c, q) ∈ newMastery ∧
        (lookupMastery s.mastery c).getD 0 < 3/5 ∧ (3 : ℚ)/5 ≤ q) ∧
    (celebrationFires s.mastery newMastery = true →
      masteryCelebration s newMastery =
        { s with showConfetti := true, showPrescription := false,
                 prescription := none }) ∧
    (celebrationFires s.mastery newMastery = false →
      masteryCelebration s newMastery = s) := by
  refine ⟨?_, fun h => by simp [masteryCelebration, h], fun h => by simp [masteryCelebration, h]⟩
  unfold celebrationFires
  rw [List.any_eq_true]
  constructor
  · rintro ⟨⟨c, q⟩, hmem, hq⟩
    rw [Bool.and_eq_true, decide_eq_true_eq, decide_eq_true_eq] at hq
    exact ⟨c, q, hmem, hq.1, hq.2⟩
  · rintro ⟨c, q, hmem, h1, h2⟩
    exact ⟨(c, q), hmem, by rw [Bool.and_eq_true, decide_eq_true_eq, decide_eq_true_eq]; exact ⟨h1, h2⟩⟩

/-- Concrete instantiation of `celebrationIffMasteryCrossing`: vectors moves
from 0.5 to 0.7 across a turn, so the celebration fires. -/
theorem celebrationIffMasteryCrossing_witness :
    celebrationFires [("vectors", 1/2)] [("vectors", 7/10)] = true :=
  (celebrationIffMasteryCrossing
      { sessionId := some "s", messages := [], phase := "evaluate",
        mastery := [("vectors", 1/2)], quizPassed := some true,
        canAdvance := true, nextConcept := none, isLoading := false,
        showConfetti := false, prescription := none, showPrescription := false,
        currentPrescriptionPhase := 1, completedPrescriptionPhases := [] }
      [("vectors", 7/10)]).1.mpr
    ⟨"vectors", 7/10, by simp, by norm_num [lookupMastery], by norm_num⟩

/-- A quick-action button, from `interface QuickAction` in
`components/ChatInterface.tsx`; the `icon` field is a render-only React
node and is not modelled. -/
structure QuickAction where
  label : String
  message : String
  variant : String
deriving DecidableEq, Repr

/-- `getQuickActions` of `components/ChatInterface.tsx` (lines 73-191):
the buttons offered for a given phase and backend state flags
(`quizPassed`, `canAdvance`, `nextConcept`).  A JS template string
`Continue to ${nextConcept}` is taken only when `nextConcept` is truthy
(non-null and non-empty). -/
def getQuickActions (phase : String) (quizPassed : Option Bool)
    (canAdvance : Bool) (nextConcept : Option String) : List QuickAction :=
  if phase = "quiz" then []
  else if phase = "complete" then
    [⟨"Start Over", "restart", "secondary"⟩]
  else if phase = "evaluate" then
    if quizPassed = some true ∧ canAdvance = true then
      [⟨(match nextConcept with
          | some n => if n = "" then "Continue" else "Continue to " ++ n
          | none => "Continue"), "continue", "success"⟩,
       ⟨"Review What I Missed", "explain what I missed", "secondary"⟩,
       ⟨"Resources", "show me resources", "secondary"⟩]
    else if quizPassed = some false then
      [⟨"Try Again", "quiz me", "primary"⟩,
       ⟨"Explain My Mistakes", "explain what I got wrong", "secondary"⟩,
       ⟨"Resources", "show me resources", "secondary"⟩]
    else
      [⟨"Continue", "continue", "success"⟩,
       ⟨"Quiz Me", "quiz me", "primary"⟩]
  else if phase = "qa" ∨ phase = "lesson" then
    [⟨"Quiz Me", "quiz me", "primary"⟩,
     ⟨"Resources", "show me resources", "secondary"⟩,
     ⟨"Explain More", "explain this better", "secondary"⟩]
  else
    [⟨"Quiz Me", "quiz me", "primary"⟩]

/-- The messages the offered quick actions would send. -/
def quickActionMessages (phase : String) (quizPassed : Option Bool)
    (canAdvance : Bool) (nextConcept : Option String) : List String :=
  (getQuickActions phase quizPassed canAdvance nextConcept).map (fun a => a.message)

/-- C5 counterexample: the claim fails on the code in both directions.  With
`phase = "evaluate"` and `quizPassed = null` (the fallback branch) a
"continue" quick action is offered even though it is not the case that
`quizPassed = true` and `canAdvance = true`; and with `quizPassed = false`
(the failed case) no "continue" quick action is offered at all, so the
"continue" re-entry the claim says is available is absent from the offered
actions. -/
theorem quickActionsClaimFails :
    "continue" ∈ quickActionMessages "evaluate" none false none ∧
    "continue" ∉ quickActionMessages "evaluate" (some false) true (some "matrix_ops") := by
  constructor
  · simp [quickActionMessages, getQuickActions]
  · simp [quickActionMessages, getQuickActions]

/-- C5 amended: in the evaluate phase with `quizPassed = false`, the quick
actions include one sending "quiz me" (a path back into the quiz) and none
sending "continue"; the "continue" quick action is offered in evaluate
exactly when `quizPassed ≠ false` (the passed-and-can-advance branch or the
null fallback branch). -/
theorem evaluateQuickActions (quizPassed : Option Bool) (canAdvance : Bool)
    (nextConcept : Option String) :
    (quizPassed = some false →
      "quiz me" ∈ quickActionMessages "evaluate" quizPassed canAdvance nextConcept ∧
      "continue" ∉ quickActionMessages "evaluate" quizPassed canAdvance nextConcept) ∧
    ("continue" ∈ quickActionMessages "evaluate" quizPassed canAdvance nextConcept ↔
      quizPassed ≠ some false) := by
  rcases quizPassed with - | b
  · cases canAdvance <;> simp [quickActionMessages, getQuickActions]
  · cases b <;> cases canAdvance <;>
      simp [quickActionMessages, getQuickActions]

/-- Concrete instantiation of `evaluateQuickActions` at the failed case. -/
theorem evaluateQuickActions_witness :
    "quiz me" ∈ quickActionMessages "evaluate" (some false) false none ∧
    "continue" ∉ quickActionMessages "evaluate" (some false) false none :=
  (evaluateQuickActions (some false) false none).1 rfl

/-- `prefixChars l sub` decides whether `sub` occurs at the head of `l`. -/
def prefixChars : List Char → List Char → Bool
  | _, [] => true
  | [], _ :: _ => false
  | a :: as, b :: bs => a == b && prefixChars as bs

/-- `subChars l sub` decides whether `sub` occurs contiguously in `l`. -/
def subChars : List Char → List Char → Bool
  | [], sub => sub.isEmpty
  | a :: as, sub => prefixChars (a :: as) sub || subChars as sub

/-- JavaScript `s.includes(sub)`: substring containment. -/
def strIncludes (s sub : String) : Bool :=
  subChars s.data sub.data

/-- The synchronous prelude of `handleSendMessage` in `app/page.tsx`
(lines 106-115): return immediately when there is no session; hide the
prescription when one is showing and the lower-cased message contains
"quiz"; append the user message and set the loading flag; the second
component is the message handed to the backend (`sendMessage`). -/
def sendMessagePrelude (s : HomeState) (message : String) : HomeState × Option String :=
  if s.sessionId.isNone then (s, none)
  else
    let s1 := if s.showPrescription && strIncludes message.toLower "quiz"
              then { s with showPrescription := false } else s
    ({ s1 with messages := s1.messages ++ [{ role := "user", content := message }],
               isLoading := true },
     some message)

/-- `handlePrescriptionComplete` in `app/page.tsx` (lines 181-188), the
`onComplete` action wired to the card's "Take Verification Quiz" button:
mark all 1-based phase positions of the active prescription completed, send
"quiz me", hide the card. -/
def handlePrescriptionComplete (s : HomeState) : HomeState × Option String :=
  let s1 := match s.prescription with
    | some p =>
        { s with completedPrescriptionPhases := completeUpdate p.prescription.phases.length }
    | none => s
  let r := sendMessagePrelude s1 "quiz me"
  ({ r.1 with showPrescription := false }, r.2)

/-- C6: with a session and an active prescription, completing the
prescription (the card's `onComplete`) marks every phase of the active
prescription as completed (the completed list becomes exactly the 1-based
positions 1..n of its phase list), sends exactly "quiz me" to the session,
and hides the prescription card. -/
theorem prescriptionCompleteEffect (s : HomeState) (p : ApiPrescriptionData)
    (hp : s.prescription = some p) (hs : s.sessionId.isSome = true) :
    (handlePrescriptionComplete s).1.completedPrescriptionPhases =
      completeUpdate p.prescription.phases.length ∧
    (∀ j : Nat, j ∈ (handlePrescriptionComplete s).1.completedPrescriptionPhases ↔
      1 ≤ j ∧ j ≤ p.prescription.phases.length) ∧
    (handlePrescriptionComplete s).2 = some "quiz me" ∧
    (handlePrescriptionComplete s).1.showPrescription = false := by
  have hn : s.sessionId.isNone = false := by
    rcases h : s.sessionId with - | v
    · rw [h] at hs; simp at hs
    · rfl
  unfold handlePrescriptionComplete sendMessagePrelude
  rw [hp]
  simp only [hn, Bool.false_eq_true, if_false]
  by_cases hq : s.showPrescription && strIncludes ("quiz me".toLower) "quiz" <;>
    simp [hq, mem_completeUpdate]

/-- A concrete three-phase API prescription used to instantiate theorems. -/
def threePhaseApiPrescription : ApiPrescriptionData :=
  { diagnosis :=
      { failed_concept := "eigenvalues", root_cause := "determinants",
        misconception := none, explanation := none, confidence := 4/5 },
    prescription :=
      { title := "Plan",
        phases :=
          [ { phase := 1, action := "Watch", title := "t1", url := none,
              source := "mahavihara", duration := "5 min", icon := "a" },
            { phase := 2, action := "Practice", title := "t2", url := none,
              source := "mahavihara", duration := "10 min", icon := "b" },
            { phase := 3, action := "Verify", title := "t3", url := none,
              source := "mahavihara", duration := "2 min", icon := "c" } ],
        total_time := "17 minutes" },
    resources := { title := "Resources", items := [] },
    verification :=
      { title := "Verification", criteria := "2/3",
        question_ids := ["q1", "q2", "q3"],
        success_criteria := "Pass 2/3 questions" } }

/-- A concrete page state, mid-prescription, used to instantiate theorems. -/
def midPrescriptionState : HomeState :=
  { sessionId := some "s1", messages := [], phase := "prescription",
    mastery := [], quizPassed := some false, canAdvance := false,
    nextConcept := none, isLoading := false, showConfetti := false,
    prescription := some threePhaseApiPrescription,
    showPrescription := true, currentPrescriptionPhase := 3,
    completedPrescriptionPhases := [1, 2] }

/-- Concrete instantiation of `prescriptionCompleteEffect` on a state holding
a three-phase prescription. -/
theorem prescriptionCompleteEffect_witness :
    (handlePrescriptionComplete midPrescriptionState).2 = some "quiz me" ∧
    (handlePrescriptionComplete midPrescriptionState).1.showPrescription = false :=
  ⟨(prescriptionCompleteEffect midPrescriptionState threePhaseApiPrescription rfl rfl).2.2.1,
   (prescriptionCompleteEffect midPrescriptionState threePhaseApiPrescription rfl rfl).2.2.2⟩

/-- A graph node, from `interface GraphNode` in `lib/api.ts`. -/
structure GraphNode where
  id : String
  label : String
  color : String
  status : Status
deriving DecidableEq, Repr

/-- A prerequisite edge, from `interface GraphEdge` in `lib/api.ts`. -/
structure GraphEdge where
  source : String
  target : String
deriving DecidableEq, Repr

/-- From `interface GraphStateResponse` in `lib/api.ts`. -/
structure GraphStateResponse where
  nodes : List GraphNode
  edges : List GraphEdge
deriving DecidableEq, Repr

/-- `CONCEPT_ORDER` of `app/page.tsx` (line 31), which is also the concept
chain of the knowledge graph described by the README
(Vectors → Matrix Ops → Determinants → Inverse → Eigenvalues). -/
def conceptOrder : List String :=
  ["vectors", "matrix_ops", "determinants", "inverse_matrix", "eigenvalues"]

/-- Modelled from the spec: the backend session state read by the
`GraphState` operation.  The backend serving `/graph-state/{sessionId}` is
not under `src/`; section 3 gives per-concept mastery (default 0.3), a
current-concept pointer and a phase. -/
structure CoreSessionState where
  mastery : MasteryMap
  currentConcept : String
  phase : String
deriving Repr

/-- Modelled from the spec: the `GraphState(sessionId)` response of
section 6 — one node per catalogued concept whose status is derived purely
from mastery (≥0.6 mastered, <0.4 failed, else neutral, via
`specStatusOfMastery`; absent concepts take the 0.3 default of section 3),
plus the static prerequisite edges of the concept chain. -/
def graphStateOfSession (s : CoreSessionState) : GraphStateResponse :=
  { nodes := conceptOrder.map (fun c =>
      { id := c, label := c,
        color := match specStatusOfMastery ((lookupMastery s.mastery c).getD (3/10)) with
          | .mastered => "#22c55e"
          | .failed => "#ef4444"
          | .neutral => "#71717a",
        status := specStatusOfMastery ((lookupMastery s.mastery c).getD (3/10)) }),
    edges := (conceptOrder.zip conceptOrder.tail).map (fun p =>
      { source := p.1, target := p.2 }) }

/-- The two session operations relevant to the idempotence property: the
`GraphState` read and the `Advance` (chat) turn. -/
inductive CoreOp where
  | graphQuery
  | advance (input : String)

/-- Modelled from the spec: one core operation on a session.  Only
`Advance` may mutate the session (section 3: the state is "mutated on every
chat turn"); its actual transition is outside `src/`, so it is taken as an
arbitrary function `advanceImpl`.  `GraphState` answers from the current
state and leaves it unchanged. -/
def runOp (advanceImpl : CoreSessionState → String → CoreSessionState)
    (s : CoreSessionState) : CoreOp → CoreSessionState × Option GraphStateResponse
  | .graphQuery => (s, some (graphStateOfSession s))
  | .advance input => (advanceImpl s input, none)

/-- C7: two consecutive `GraphState` reads with no intervening `Advance`
return identical output, whatever the (unobserved) `Advance` transition
does: the first read leaves the session unchanged, so the second read
answers from the same state. -/
theorem graphStateIdempotent
    (advanceImpl : CoreSessionState → String → CoreSessionState)
    (s : CoreSessionState) :
    (runOp advanceImpl s .graphQuery).2 =
      (runOp advanceImpl (runOp advanceImpl s .graphQuery).1 .graphQuery).2 ∧
    (runOp advanceImpl s .graphQuery).1 = s :=
  ⟨rfl, rfl⟩

/-- An HTTP response as far as the API client inspects it: the `ok` flag and
an opaque body. -/
structure HttpResponse where
  ok : Bool
  body : String
deriving DecidableEq, Repr

/-- `startSession` of `lib/api.ts` (lines 40-48): throws
"Failed to start session" whenever the response is not ok, otherwise
resolves with the parsed body. -/
def startSessionResult (res : HttpResponse) : Except String String :=
  if res.ok then Except.ok res.body else Except.error "Failed to start session"

/-- `sendMessage` of `lib/api.ts` (lines 50-58). -/
def sendMessageResult (res : HttpResponse) : Except String String :=
  if res.ok then Except.ok res.body else Except.error "Failed to send message"

/-- `getGraphState` of `lib/api.ts` (lines 60-64). -/
def getGraphStateResult (res : HttpResponse) : Except String String :=
  if res.ok then Except.ok res.body else Except.error "Failed to get graph state"

/-- `deleteSession` of `lib/api.ts` (lines 66-70): the DELETE request is
awaited but the response is never inspected, so the call resolves for every
response. -/
def deleteSessionResult (res : HttpResponse) : Except String Unit :=
  Except.ok ()

/-- C8: `deleteSession` resolves successfully for every response, including
failures, while `startSession`, `sendMessage` and `getGraphState` each throw
their error whenever the response is not ok. -/
theorem deleteSessionNeverThrows (res : HttpResponse) :
    deleteSessionResult res = Except.ok () ∧
    (res.ok = false →
      startSessionResult res = Except.error "Failed to start session" ∧
      sendMessageResult res = Except.error "Failed to send message" ∧
      getGraphStateResult res = Except.error "Failed to get graph state") := by
  refine ⟨rfl, fun h => ?_⟩
  unfold startSessionResult sendMessageResult getGraphStateResult
  rw [h]
  exact ⟨rfl, rfl, rfl⟩

/-- Concrete instantiation of `deleteSessionNeverThrows` at a 500-style
failed response. -/
theorem deleteSessionNeverThrows_witness :
    deleteSessionResult { ok := false, body := "Internal Server Error" } = Except.ok () ∧
    startSessionResult { ok := false, body := "Internal Server Error" } =
      Except.error "Failed to start session" :=
  ⟨(deleteSessionNeverThrows _).1,
   ((deleteSessionNeverThrows { ok := false, body := "Internal Server Error" }).2 rfl).1⟩

/-- Folding `+` from an accumulator equals the accumulator plus the sum. -/
theorem foldlAddEqSum (l : List ℚ) (a : ℚ) :
    l.foldl (fun x y => x + y) a = a + l.sum := by
  induction l generalizing a with
  | nil => simp
  | cons h t ih => simp [ih, add_assoc]

/-- The `overallMastery` computation of `app/page.tsx` (lines 218-220) and
`components/ChatInterface.tsx` (lines 196-199), identical in both:
`Object.values(mastery).length > 0 ? Math.round((values.reduce((a, b) => a + b, 0) / values.length) * 100) : 50`. -/
def overallMastery (mastery : MasteryMap) : ℤ :=
  let vals := mastery.map (fun p => p.2)
  if 0 < vals.length then
    round ((vals.foldl (fun a b => a + b) 0 / (vals.length : ℚ)) * 100)
  else 50

/-- C9: the displayed overall-mastery figure is the rounded percentage of
the mean per-concept mastery when the map is non-empty, and exactly 50 when
the map is empty. -/
theorem overallMasteryFormula (mastery : MasteryMap) :
    overallMastery mastery =
      if mastery = [] then 50
      else round (((mastery.map (fun p => p.2)).sum /
        ((mastery.map (fun p => p.2)).length : ℚ)) * 100) := by
  unfold overallMastery
  rcases mastery with - | ⟨hd, tl⟩
  · rfl
  · simp only [List.map_cons, List.length_cons, if_pos (Nat.succ_pos _),
      reduceCtorEq, if_false]
    rw [foldlAddEqSum, List.sum_cons, zero_add]

/-- The `disabled` condition of the "Take Verification Quiz" button in
`components/PrescriptionCard.tsx` (line 349):
`completedPhases.length < phases.length - 1` (JavaScript subtraction, so the
comparison is over integers). -/
def verifyQuizDisabled (completedPhases : List Nat)
    (phases : List PrescriptionPhase) : Bool :=
  decide ((completedPhases.length : ℤ) < (phases.length : ℤ) - 1)

/-- C10: the "Take Verification Quiz" button is enabled iff the number of
completed phases is at least the total number of phases minus one; it is
enabled with only the final phase incomplete, and disabled whenever two or
more phases remain incomplete. -/
theorem verifyQuizGating (completedPhases : List Nat)
    (phases : List PrescriptionPhase) :
    (verifyQuizDisabled completedPhases phases = false ↔
      (phases.length : ℤ) - 1 ≤ (completedPhases.length : ℤ)) ∧
    (completedPhases.length + 1 = phases.length →
      verifyQuizDisabled completedPhases phases = false) ∧
    (completedPhases.length + 2 ≤ phases.length →
      verifyQuizDisabled completedPhases phases = true) := by
  unfold verifyQuizDisabled
  refine ⟨?_, fun h => ?_, fun h => ?_⟩
  · rw [decide_eq_false_iff_not, not_lt]
  · rw [decide_eq_false_iff_not, not_lt]; omega
  · rw [decide_eq_true_eq]; omega

/-- Concrete instantiation of `verifyQuizGating`: with the three-phase
prescription, completing phases 1 and 2 enables the button while completing
only phase 1 leaves it disabled. -/
theorem verifyQuizGating_witness :
    verifyQuizDisabled [1, 2] threePhaseApiPrescription.prescription.phases = false ∧
    verifyQuizDisabled [1] threePhaseApiPrescription.prescription.phases = true :=
  ⟨(verifyQuizGating [1, 2] threePhaseApiPrescription.prescription.phases).2.1 rfl,
   (verifyQuizGating [1] threePhaseApiPrescription.prescription.phases).2.2 (by decide)⟩

end Mahavihara
